import Mathlib

/-!
Verification of the Bank-Account-Opening-Form core
(`src/BankAccount/src/component/AccountForm.tsx`): the zod validation
schema (`schema`, lines 6-50) and the submit state machine of the
`AccountForm` component (lines 54-321).

The embedding is shallow: each zod field rule becomes an executable Lean
predicate over the raw field value, `validate` collects one error message
per failing field exactly as `zodResolver(schema)` hands the first issue
per field to react-hook-form, and the component's `isSubmitting` /
`isSubmitted` flags become a three-phase step function.

JavaScript strings are modelled as Lean `String` (the fields involved are
ASCII, where JS UTF-16 length and Lean codepoint length agree), and the
IEEE-754 double produced by `valueAsNumber` is modelled as `JsNum`: either
NaN or a finite value represented exactly as a rational (order comparisons
against the literal 100 are exact in both models).
-/

/-- A JavaScript number as produced by `valueAsNumber` on the
`initialDeposit` input: `NaN` when the field is empty or non-numeric,
otherwise a finite double, represented exactly as a rational. -/
inductive JsNum where
  | nan : JsNum
  | num : ℚ → JsNum
deriving DecidableEq, Repr

/-- The field names of the zod object `schema` (AccountForm.tsx lines 6-50),
in declaration order. The spec refers to `fullname` as fullName, `dob` as
dateOfBirth, `streetaddress`/`zipcode` as streetAddress/zipCode and `terms`
as termsAccepted. -/
inductive FieldName where
  | fullname | email | phone | dob | accountType
  | initialDeposit | currency | streetaddress | city | zipcode | terms
deriving DecidableEq, Repr, Fintype

/-- The raw, unvalidated record bound by `register` in `AccountForm`:
text inputs and selects deliver strings, the deposit input delivers a
JS number via `valueAsNumber` (line 218), and the terms checkbox delivers
a boolean (line 293). The spec calls this FormInput. -/
structure FormInput where
  fullname : String
  email : String
  phone : String
  dob : String
  accountType : String
  initialDeposit : JsNum
  currency : String
  streetaddress : String
  city : String
  zipcode : String
  terms : Bool
deriving DecidableEq, Repr

/-- The schema-accepted output (the spec's ValidatedAccountRequest).
The zod schema applies no value transformation, so a successful parse
returns the input values unchanged, only with narrowed static types;
the coercion below therefore copies every field. -/
structure ValidatedAccountRequest where
  fullname : String
  email : String
  phone : String
  dob : String
  accountType : String
  initialDeposit : JsNum
  currency : String
  streetaddress : String
  city : String
  zipcode : String
  terms : Bool
deriving DecidableEq, Repr

def coerce (i : FormInput) : ValidatedAccountRequest :=
  { fullname := i.fullname, email := i.email, phone := i.phone,
    dob := i.dob, accountType := i.accountType,
    initialDeposit := i.initialDeposit, currency := i.currency,
    streetaddress := i.streetaddress, city := i.city,
    zipcode := i.zipcode, terms := i.terms }

/-- The spec's ValidationErrorSet: a mapping from field name to one
human-readable message, here a key-ordered association list. -/
abbrev ValidationErrorSet := List (FieldName × String)

/-- A zod rule chain for one field: predicates paired with the failure
message of each check, in chain order. -/
abbrev RuleChain (α : Type) := List ((α → Bool) × String)

/-- The message of the first failing rule of a chain, as react-hook-form's
default `criteriaMode: "firstError"` keeps only the first zod issue per
field; `none` when every rule passes. -/
def firstFailing {α : Type} (rules : RuleChain α) (v : α) : Option String :=
  rules.findSome? fun r => if r.1 v then none else some r.2

/-- Digits-only test, the JS regex `^\d+$` on a nonempty string
(`\d` is `[0-9]`, matching `Char.isDigit`). -/
def digitsOnly (s : String) : Bool := s.data.all Char.isDigit

/-- `fullname`: `z.string().nonempty(...).min(3, ...)` (lines 7-10). -/
def fullnameRules : RuleChain String :=
  [(fun s => 1 ≤ s.length, "Full name is required"),
   (fun s => 3 ≤ s.length, "Full name must be at least 3 characters long")]

/-- Character class `[A-Z0-9_'+\-.]` (case-insensitive) of the local part
of zod's email regex; code 39 is the apostrophe. -/
def isLocalChar (c : Char) : Bool :=
  c.isAlphanum || c = '_' || c = '+' || c = '-' || c = '.' || c.toNat = 39

/-- Character class `[A-Z0-9_+-]` (case-insensitive): the character the
email regex requires immediately before the `@`. -/
def isLocalLast (c : Char) : Bool :=
  c.isAlphanum || c = '_' || c = '+' || c = '-'

/-- A character allowed after the first character of a domain label:
`[A-Z0-9-]` case-insensitively. -/
def isLabelChar (c : Char) : Bool := c.isAlphanum || c = '-'

/-- A domain label `[A-Z0-9][A-Z0-9-]*` (case-insensitive). -/
def isLabel : List Char → Bool
  | [] => false
  | a :: tl => a.isAlphanum && tl.all isLabelChar

/-- The final domain segment `[A-Z]{2,}` (case-insensitive). -/
def isTld (l : List Char) : Bool := 2 ≤ l.length && l.all Char.isAlpha

/-- Whether the character list contains two consecutive dots, the
`(?!.*\.\.)` negative lookahead of the email regex. -/
def hasDoubleDot : List Char → Bool
  | '.' :: '.' :: _ => true
  | _ :: tl => hasDoubleDot tl
  | [] => false

/-- Split at the first occurrence of `c`, if any. -/
def breakAt (c : Char) : List Char → Option (List Char × List Char)
  | [] => none
  | a :: tl =>
    if a = c then some ([], tl)
    else (breakAt c tl).map fun p => (a :: p.1, p.2)

/-- The domain part `([A-Z0-9][A-Z0-9-]*\.)+[A-Z]{2,}` of the email
regex: one or more dot-separated labels followed by an alphabetic
top-level segment of length at least 2. -/
def domainOk (l : List Char) : Bool :=
  let parts := l.splitOn '.'
  2 ≤ parts.length && isTld (parts.getLastD []) && parts.dropLast.all isLabel

/-- zod's `.email()` check (line 14): the zod v3 email regexp
`^(?!\.)(?!.*\.\.)([A-Z0-9_'+\-.]*)[A-Z0-9_+-]@([A-Z0-9][A-Z0-9-]*\.)+[A-Z]{2,}$`
applied case-insensitively. The local part reaches exactly to the first
`@` (none of its characters may be `@`), so the regex decomposes into the
two lookaheads, a local-part check, and a domain check. -/
def emailCheck (s : String) : Bool :=
  let l := s.data
  (match l with | '.' :: _ => false | _ => true) &&
  !hasDoubleDot l &&
  match breakAt '@' l with
  | none => false
  | some (loc, dom) =>
    loc.all isLocalChar && isLocalLast (loc.getLastD '@') && domainOk dom

/-- `email`: `z.string().nonempty(...).email(...)` (lines 11-14). -/
def emailRules : RuleChain String :=
  [(fun s => 1 ≤ s.length, "Email is required"),
   (emailCheck, "Invalid email address")]

/-- `phone`: `z.string().nonempty(...).regex(/^\d+$/, ...).length(10, ...)`
(lines 15-19). -/
def phoneRules : RuleChain String :=
  [(fun s => 1 ≤ s.length, "Phone number is required"),
   (fun s => 1 ≤ s.length && digitsOnly s, "Phone number must be digits only"),
   (fun s => s.length = 10, "Phone number must be exactly 10 digits")]

/-- Whether the first ten characters of the list match the pattern
`\d{4}-\d{2}-\d{2}`. -/
def shapeAt : List Char → Bool
  | a :: b :: c :: d :: '-' :: e :: f :: '-' :: g :: h :: _ =>
    a.isDigit && b.isDigit && c.isDigit && d.isDigit &&
    e.isDigit && f.isDigit && g.isDigit && h.isDigit
  | _ => false

/-- Whether some suffix of the list starts with a `\d{4}-\d{2}-\d{2}`
match. -/
def hasShape : List Char → Bool
  | [] => false
  | l@(_ :: tl) => shapeAt l || hasShape tl

/-- The `dob` format check (lines 22-24): the JS regex
`/\d{4}-\d{2}-\d{2}/` is UNANCHORED, so `.regex` passes whenever the
string CONTAINS a `\d{4}-\d{2}-\d{2}` substring, not only when the whole
string has that shape. -/
def dobFormatCheck (s : String) : Bool := hasShape s.data

/-- Numeric value of an ASCII digit. -/
def digitVal (c : Char) : Nat := c.toNat - 48

/-- Gregorian leap-year test, as used by the JS `Date` calendar. -/
def isLeap (y : Nat) : Bool := (y % 4 = 0 && y % 100 != 0) || y % 400 = 0

/-- Days in a month of the Gregorian calendar. -/
def daysInMonth (y m : Nat) : Nat :=
  if m = 2 then (if isLeap y then 29 else 28)
  else if m = 4 || m = 6 || m = 9 || m = 11 then 30
  else 31

/-- Models `new Date(dob).getFullYear()` (line 27): `some y` when `dob` is
an exact ISO `YYYY-MM-DD` string naming a valid calendar date, in which
case the JS `Date` parses it (as UTC midnight) and `getFullYear` returns
its year; `none` models the `NaN` that `getFullYear` returns on an Invalid
Date. Strings the engine's non-ISO fallback parser might still accept are
modelled as unparseable; no claim depends on that fallback. The model
reads the year in UTC, ignoring the local-timezone offset that
`getFullYear` would apply. -/
def parseBirthYear (s : String) : Option Int :=
  match s.data with
  | [a, b, c, d, '-', e, f, '-', g, h] =>
    if a.isDigit && b.isDigit && c.isDigit && d.isDigit &&
       e.isDigit && f.isDigit && g.isDigit && h.isDigit then
      let y := 1000 * digitVal a + 100 * digitVal b + 10 * digitVal c + digitVal d
      let m := 10 * digitVal e + digitVal f
      let dd := 10 * digitVal g + digitVal h
      if 1 ≤ m && m ≤ 12 && 1 ≤ dd && dd ≤ daysInMonth y m then
        some (y : Int)
      else none
    else none
  | _ => none

/-- The `.refine` age rule (lines 25-32): subtract the birth year from the
current year and compare with 18. When the birth year is `NaN` (Invalid
Date) the JS comparison `NaN >= 18` is false, modelled by the `none`
branch. `currentYear` is the injectable clock of the spec,
`new Date().getFullYear()` in the code. -/
def ageCheck (currentYear : Int) (dob : String) : Bool :=
  match parseBirthYear dob with
  | some y => 18 ≤ currentYear - y
  | none => false

/-- `dob`: `z.string().regex(/\d{4}-\d{2}-\d{2}/, ...).refine(...)`
(lines 20-32). zod skips the `.refine` when the inner string schema
failed, so the format message always wins over the age message, which
first-failing evaluation reproduces. -/
def dobRules (currentYear : Int) : RuleChain String :=
  [(dobFormatCheck, "Invalid date format (YYYY-MM-DD)"),
   (ageCheck currentYear, "You must be at least 18 years old")]

/-- `accountType`: `z.enum(["savings", "current"], ...)` (lines 33-35).
An unselected `<select>` submits the empty string, which is not in the
enum. -/
def accountTypeRules : RuleChain String :=
  [(fun s => s = "savings" || s = "current", "Account type is required")]

/-- `initialDeposit`: `z.number().min(100, ...)` (line 36). `z.number()`
itself rejects `NaN` with zod's default invalid-type message, before the
`.min` check is reached. -/
def initialDepositRules : RuleChain JsNum :=
  [(fun n => match n with | .nan => false | .num _ => true,
    "Expected number, received nan"),
   (fun n => match n with | .nan => false | .num q => 100 ≤ q,
    "Minimum deposit is $100")]

/-- `currency`: `z.enum(["USD", "EUR", "LKR"], ...)` (lines 37-39). -/
def currencyRules : RuleChain String :=
  [(fun s => s = "USD" || s = "EUR" || s = "LKR", "Select a valid currency")]

/-- `streetaddress`: `z.string().nonempty(...)` (line 40). -/
def streetaddressRules : RuleChain String :=
  [(fun s => 1 ≤ s.length, "Street address is required")]

/-- `city`: `z.string().nonempty(...)` (line 41). -/
def cityRules : RuleChain String :=
  [(fun s => 1 ≤ s.length, "City is required")]

/-- `zipcode`: `z.string().nonempty(...).regex(/^\d+$/, ...).length(5, ...)`
(lines 42-46). -/
def zipcodeRules : RuleChain String :=
  [(fun s => 1 ≤ s.length, "Zip code is required"),
   (fun s => 1 ≤ s.length && digitsOnly s, "Zip code must be digits only"),
   (fun s => s.length = 5, "Zip code must be exactly 5 digits")]

/-- `terms`: `z.literal(true, { errorMap: ... })` (lines 47-49). -/
def termsRules : RuleChain Bool :=
  [(fun b => b, "You must accept the terms and conditions")]

/-- The first failing rule's message for one field of the input, or `none`
when the field satisfies every rule of its chain. -/
def fieldError (currentYear : Int) (i : FormInput) : FieldName → Option String
  | .fullname => firstFailing fullnameRules i.fullname
  | .email => firstFailing emailRules i.email
  | .phone => firstFailing phoneRules i.phone
  | .dob => firstFailing (dobRules currentYear) i.dob
  | .accountType => firstFailing accountTypeRules i.accountType
  | .initialDeposit => firstFailing initialDepositRules i.initialDeposit
  | .currency => firstFailing currencyRules i.currency
  | .streetaddress => firstFailing streetaddressRules i.streetaddress
  | .city => firstFailing cityRules i.city
  | .zipcode => firstFailing zipcodeRules i.zipcode
  | .terms => firstFailing termsRules i.terms

/-- The schema's fields in declaration order. -/
def fieldList : List FieldName :=
  [.fullname, .email, .phone, .dob, .accountType, .initialDeposit,
   .currency, .streetaddress, .city, .zipcode, .terms]

/-- The complete error set of one validation pass: every field is checked
independently and every failing field contributes its (first) message —
zod's object parser never short-circuits across fields. -/
def validationErrors (currentYear : Int) (i : FormInput) : ValidationErrorSet :=
  fieldList.filterMap fun f => (fieldError currentYear i f).map fun m => (f, m)

/-- The pure validation function of the spec:
`validate(input) -> Result<ValidatedAccountRequest, ValidationErrorSet>`,
i.e. `zodResolver(schema)` applied to the bound form values at the given
clock year. Success exactly when no field produced an error. -/
def validate (currentYear : Int) (i : FormInput) :
    Except ValidationErrorSet ValidatedAccountRequest :=
  let es := validationErrors currentYear i
  if es.isEmpty then .ok (coerce i) else .error es

/-- The controller phases: the spec's three-state enum replacing the
`isSubmitting` flag of react-hook-form and the `isSubmitted` `useState`
flag (lines 58-61). -/
inductive Phase where
  | editing | submitting | submitted
deriving DecidableEq, Repr

/-- The observable controller state: phase, the bound field values (the
uncontrolled inputs retain what the user typed), and the per-field error
messages most recently attached by the resolver. -/
structure ControllerState where
  phase : Phase
  values : FormInput
  errors : ValidationErrorSet
deriving DecidableEq, Repr

/-- The events the controller reacts to: a press of the submit button,
and the completion of the pending `handleSubmit` pass. -/
inductive Event where
  | submit | resolve
deriving DecidableEq, Repr

/-- One step of the `AccountForm` controller.

* `editing` + `submit`: `handleSubmit` starts and `isSubmitting` becomes
  true (line 59, line 85).
* `submitting` + `submit`: ignored — the submit button is rendered with
  `disabled={isSubmitting}` (line 312), so no second pass can start.
* `submitting` + `resolve`: the resolver runs `validate`; on success
  `onSubmit` fires and `setIsSubmitted(true)` (lines 63-66) shows the
  terminal success surface; on failure the errors are attached and the
  form re-renders in the editing state with the entered values intact.
* `submitted` + anything: the component renders only the success `<div>`
  (lines 68-81) — no form, no button, no handler — so no event changes
  the state; no reset transition exists. -/
def step (currentYear : Int) (s : ControllerState) : Event → ControllerState
  | .submit =>
    match s.phase with
    | .editing => { s with phase := .submitting }
    | .submitting => s
    | .submitted => s
  | .resolve =>
    match s.phase with
    | .submitting =>
      match validate currentYear s.values with
      | .ok _ => { s with phase := .submitted, errors := [] }
      | .error es => { s with phase := .editing, errors := es }
    | .editing => s
    | .submitted => s

/-- The spec's words for the dob format rule: the whole string is exactly
`YYYY-MM-DD` — four digits, hyphen, two digits, hyphen, two digits, and
nothing more. Stated from the spec for comparison with `dobFormatCheck`,
the check the code's unanchored regex actually implements. -/
def isExactDateShape (s : String) : Bool :=
  shapeAt s.data && s.data.length == 10

/-- The § 8 success-scenario input (spec.md § 8), with the spec's field
names mapped to the form's registered names. -/
def scenarioInput : FormInput :=
  { fullname := "Jane Doe", email := "jane@x.com", phone := "1234567890",
    dob := "2000-01-01", accountType := "savings",
    initialDeposit := .num 500, currency := "USD",
    streetaddress := "1 Main St", city := "Springfield",
    zipcode := "12345", terms := true }

/-- The § 8 failure scenario: the same input with `termsAccepted` false. -/
def scenarioTermsFalse : FormInput := { scenarioInput with terms := false }

lemma mem_fieldList (f : FieldName) : f ∈ fieldList := by
  cases f <;> simp [fieldList]

lemma fieldList_nodup : fieldList.Nodup := by decide

lemma errEntries_fst_sublist (g : FieldName → Option String)
    (l : List FieldName) :
    ((l.filterMap fun f => (g f).map fun m => (f, m)).map Prod.fst).Sublist l := by
  induction l with
  | nil => simp
  | cons a tl ih =>
    cases h : g a with
    | none =>
      simpa [List.filterMap_cons, h] using ih.cons a
    | some m =>
      simpa [List.filterMap_cons, h] using ih.cons₂ a

lemma mem_errEntries (g : FieldName → Option String) (l : List FieldName)
    (f : FieldName) (m : String) :
    (f, m) ∈ (l.filterMap fun x => (g x).map fun m => (x, m)) ↔
      f ∈ l ∧ g f = some m := by
  simp only [List.mem_filterMap, Option.map_eq_some', Prod.mk.injEq]
  constructor
  · rintro ⟨a, ha, m', hg, rfl, rfl⟩
    exact ⟨ha, hg⟩
  · rintro ⟨hf, hg⟩
    exact ⟨f, hf, m, hg, rfl, rfl⟩

lemma errEntries_eq_nil (g : FieldName → Option String) (l : List FieldName) :
    (l.filterMap fun x => (g x).map fun m => (x, m)) = [] ↔
      ∀ f ∈ l, g f = none := by
  simp [List.filterMap_eq_nil_iff, Option.map_eq_none']

lemma nodup_all_eq_singleton {α : Type} {l : List α} {x : α} (hd : l.Nodup)
    (hall : ∀ y ∈ l, y = x) (hx : x ∈ l) : l = [x] := by
  cases l with
  | nil => cases hx
  | cons a tl =>
    have ha : a = x := hall a (List.mem_cons_self a tl)
    subst ha
    have htl : tl = [] := by
      cases tl with
      | nil => rfl
      | cons b tb =>
        have hb : b = a := hall b (by simp)
        have hmem : a ∈ b :: tb := by
          rw [hb]
          exact List.mem_cons_self a tb
        rw [List.nodup_cons] at hd
        exact absurd hmem hd.1
    rw [htl]

lemma hasShape_iff (l : List Char) :
    hasShape l = true ↔ ∃ l₁ l₂, l = l₁ ++ l₂ ∧ shapeAt l₂ = true := by
  induction l with
  | nil =>
    constructor
    · intro h; cases h
    · rintro ⟨l₁, l₂, he, hs⟩
      rcases List.append_eq_nil.mp he.symm with ⟨rfl, rfl⟩
      cases hs
  | cons a tl ih =>
    simp only [hasShape, Bool.or_eq_true, ih]
    constructor
    · rintro (h | ⟨l₁, l₂, rfl, hs⟩)
      · exact ⟨[], a :: tl, rfl, h⟩
      · exact ⟨a :: l₁, l₂, rfl, hs⟩
    · rintro ⟨l₁, l₂, he, hs⟩
      cases l₁ with
      | nil =>
        left
        simp only [List.nil_append] at he
        rwa [he]
      | cons b tb =>
        right
        simp only [List.cons_append, List.cons.injEq] at he
        exact ⟨tb, l₂, he.2, hs⟩

lemma validate_eq (cy : Int) (i : FormInput) :
    validate cy i = if (validationErrors cy i).isEmpty then
      Except.ok (coerce i) else Except.error (validationErrors cy i) := rfl

lemma validationErrors_eq_nil (cy : Int) (i : FormInput) :
    validationErrors cy i = [] ↔ ∀ f, fieldError cy i f = none := by
  rw [validationErrors, errEntries_eq_nil]
  exact ⟨fun h f => h f (mem_fieldList f), fun h f _ => h f⟩

lemma mem_validationErrors (cy : Int) (i : FormInput) (f : FieldName)
    (m : String) :
    (f, m) ∈ validationErrors cy i ↔ fieldError cy i f = some m := by
  rw [validationErrors, mem_errEntries]
  exact ⟨fun h => h.2, fun h => ⟨mem_fieldList f, h⟩⟩

lemma validationErrors_nodup (cy : Int) (i : FormInput) :
    (validationErrors cy i).Nodup :=
  List.Nodup.of_map Prod.fst
    (List.Nodup.sublist (errEntries_fst_sublist (fieldError cy i) fieldList)
      fieldList_nodup)

/-- C1: `validate` succeeds exactly when every field satisfies its rule;
on failure the returned error set has an entry for every failing field
simultaneously (no short-circuiting across fields), and for an input with
exactly one invalid field the error set is exactly the one entry keyed to
that field. -/
theorem validate_error_set_complete (cy : Int) (i : FormInput) :
    ((∃ r, validate cy i = Except.ok r) ↔ ∀ f, fieldError cy i f = none) ∧
    (∀ es, validate cy i = Except.error es →
      ∀ f, (∃ m, (f, m) ∈ es) ↔ fieldError cy i f ≠ none) ∧
    (∀ f₀ m₀, fieldError cy i f₀ = some m₀ →
      (∀ f, f ≠ f₀ → fieldError cy i f = none) →
      validate cy i = Except.error [(f₀, m₀)]) := by
  refine ⟨?_, ?_, ?_⟩
  · constructor
    · rintro ⟨r, hr⟩
      rw [validate_eq] at hr
      by_cases h : (validationErrors cy i).isEmpty = true
      · exact (validationErrors_eq_nil cy i).mp (List.isEmpty_iff.mp h)
      · rw [if_neg h] at hr
        cases hr
    · intro h
      refine ⟨coerce i, ?_⟩
      rw [validate_eq, (validationErrors_eq_nil cy i).mpr h]
      rfl
  · intro es hes f
    rw [validate_eq] at hes
    by_cases h : (validationErrors cy i).isEmpty = true
    · rw [if_pos h] at hes
      cases hes
    · rw [if_neg h, Except.error.injEq] at hes
      subst hes
      constructor
      · rintro ⟨m, hm⟩
        rw [mem_validationErrors] at hm
        simp [hm]
      · intro hne
        rcases Option.ne_none_iff_exists'.mp hne with ⟨m, hm⟩
        exact ⟨m, (mem_validationErrors cy i f m).mpr hm⟩
  · intro f₀ m₀ h₀ hrest
    have hsing : validationErrors cy i = [(f₀, m₀)] := by
      refine nodup_all_eq_singleton (validationErrors_nodup cy i) ?_ ?_
      · rintro ⟨f, m⟩ hy
        rw [mem_validationErrors] at hy
        by_cases hf : f = f₀
        · subst hf
          rw [h₀, Option.some.injEq] at hy
          rw [hy]
        · rw [hrest f hf] at hy
          cases hy
      · exact (mem_validationErrors cy i f₀ m₀).mpr h₀
    rw [validate_eq, hsing]
    rfl

/-- Witness for C1: on the § 8 scenario input with terms unchecked, field
`terms` is the single invalid field and the error set is exactly that one
entry. -/
theorem validate_error_set_complete_witness :
    validate 2026 scenarioTermsFalse =
      Except.error [(FieldName.terms, "You must accept the terms and conditions")] :=
  (validate_error_set_complete 2026 scenarioTermsFalse).2.2 FieldName.terms
    "You must accept the terms and conditions" (by decide) (by decide)

/-- C2: when `validate` fails, the submit attempt keeps the controller out
of `Submitted` and ends back in `Editing` with the error set attached and
the entered values unchanged; and the § 8 scenario input with terms
unchecked yields exactly the terms error whenever the current year is at
least 2018. -/
theorem failed_validation_stays_editing (cy : Int) :
    (∀ (s : ControllerState) (es : ValidationErrorSet),
      s.phase = Phase.editing → validate cy s.values = Except.error es →
      (step cy s Event.submit).phase = Phase.submitting ∧
      (step cy s Event.submit).phase ≠ Phase.submitted ∧
      step cy (step cy s Event.submit) Event.resolve =
        { phase := Phase.editing, values := s.values, errors := es }) ∧
    (2018 ≤ cy → validationErrors cy scenarioTermsFalse =
      [(FieldName.terms, "You must accept the terms and conditions")]) := by
  constructor
  · intro s es hph hval
    have h1 : step cy s Event.submit = { s with phase := Phase.submitting } := by
      simp [step, hph]
    refine ⟨by rw [h1], by rw [h1]; simp, ?_⟩
    rw [h1]
    simp [step, hval]
  · intro hcy
    have hage : ageCheck cy "2000-01-01" = true := by
      have hp : parseBirthYear "2000-01-01" = some 2000 := by decide
      unfold ageCheck
      rw [hp]
      simp only [decide_eq_true_eq]
      omega
    have hdob : fieldError cy scenarioTermsFalse FieldName.dob = none := by
      show firstFailing (dobRules cy) "2000-01-01" = none
      have hfmt : dobFormatCheck "2000-01-01" = true := by decide
      simp [firstFailing, dobRules, List.findSome?_cons, hfmt, hage]
    have hfull : fieldError cy scenarioTermsFalse FieldName.fullname = none := rfl
    have hemail : fieldError cy scenarioTermsFalse FieldName.email = none := rfl
    have hphone : fieldError cy scenarioTermsFalse FieldName.phone = none := rfl
    have hacct : fieldError cy scenarioTermsFalse FieldName.accountType = none := rfl
    have hdep : fieldError cy scenarioTermsFalse FieldName.initialDeposit = none := by
      show firstFailing initialDepositRules (JsNum.num 500) = none
      decide
    have hcur : fieldError cy scenarioTermsFalse FieldName.currency = none := rfl
    have hstreet : fieldError cy scenarioTermsFalse FieldName.streetaddress = none := rfl
    have hcity : fieldError cy scenarioTermsFalse FieldName.city = none := rfl
    have hzip : fieldError cy scenarioTermsFalse FieldName.zipcode = none := rfl
    have hterm : fieldError cy scenarioTermsFalse FieldName.terms =
        some "You must accept the terms and conditions" := rfl
    show fieldList.filterMap _ = _
    rw [fieldList]
    simp only [List.filterMap_cons, List.filterMap_nil, hfull, hemail, hphone,
      hdob, hacct, hdep, hcur, hstreet, hcity, hzip, hterm,
      Option.map_none', Option.map_some']

/-- Witness for C2: at clock year 2026, a submit attempt from `Editing`
on the terms-unchecked scenario input returns to `Editing` carrying
exactly the terms error, with the values intact. -/
theorem failed_validation_stays_editing_witness :
    step 2026 (step 2026 ⟨Phase.editing, scenarioTermsFalse, []⟩ Event.submit)
        Event.resolve =
      ⟨Phase.editing, scenarioTermsFalse,
        [(FieldName.terms, "You must accept the terms and conditions")]⟩ :=
  ((failed_validation_stays_editing 2026).1
    ⟨Phase.editing, scenarioTermsFalse, []⟩
    [(FieldName.terms, "You must accept the terms and conditions")]
    rfl rfl).2.2

/-- C3: `Submitted` is terminal — once the controller is in `Submitted`,
no sequence of further events changes its state, so it never returns to
`Editing` or `Submitting`; the component renders only the success surface
for the rest of its lifetime and no reset transition exists. -/
theorem submitted_is_terminal (cy : Int) (s : ControllerState)
    (events : List Event) (h : s.phase = Phase.submitted) :
    events.foldl (step cy) s = s := by
  have hstep : ∀ e, step cy s e = s := by
    intro e
    cases e <;> simp [step, h]
  induction events with
  | nil => rfl
  | cons e tl ih =>
    rw [List.foldl_cons, hstep e]
    exact ih

/-- Witness for C3: a submitted state absorbs a concrete event sequence. -/
theorem submitted_is_terminal_witness :
    [Event.submit, Event.resolve, Event.submit].foldl (step 2026)
        ⟨Phase.submitted, scenarioInput, []⟩ =
      ⟨Phase.submitted, scenarioInput, []⟩ :=
  submitted_is_terminal 2026 ⟨Phase.submitted, scenarioInput, []⟩
    [Event.submit, Event.resolve, Event.submit] rfl

/-- C4: for a dateOfBirth that passes the format check and parses to a
birth year, the age rule accepts exactly when the current year minus the
birth year is at least 18; a birth date exactly 18 calendar years before
a "now" of 2026-02-05 passes, and a birth date 17 years and 364 days
before a "now" of 2026-01-01 — whose calendar year differs from the
current year by 18 — also passes (the year-subtraction quirk). -/
theorem age_rule_is_year_subtraction :
    (∀ (cy : Int) (dob : String) (y : Int), dobFormatCheck dob = true →
      parseBirthYear dob = some y →
      (ageCheck cy dob = true ↔ 18 ≤ cy - y)) ∧
    ageCheck 2026 "2008-02-05" = true ∧
    ageCheck 2026 "2008-01-02" = true := by
  refine ⟨?_, by decide, by decide⟩
  intro cy dob y _ hy
  unfold ageCheck
  rw [hy]
  simp only [decide_eq_true_eq]

/-- Witness for C4: at clock year 2026 the rule accepts a 2000 birth year
because 2026 − 2000 ≥ 18. -/
theorem age_rule_is_year_subtraction_witness :
    ageCheck 2026 "2000-01-01" = true ↔ 18 ≤ (2026 : Int) - 2000 :=
  age_rule_is_year_subtraction.1 2026 "2000-01-01" 2000 (by decide) (by decide)

/-- C9: while the controller is in `Submitting`, a further submit trigger
is ignored — the submit button is disabled, so the state is unchanged and
no second validation pass starts before the pending one resolves. -/
theorem submitting_ignores_repeated_submit (cy : Int) (s : ControllerState)
    (h : s.phase = Phase.submitting) :
    step cy s Event.submit = s := by
  simp [step, h]

/-- Witness for C9: a concrete submitting state absorbs a submit event. -/
theorem submitting_ignores_repeated_submit_witness :
    step 2026 ⟨Phase.submitting, scenarioInput, []⟩ Event.submit =
      ⟨Phase.submitting, scenarioInput, []⟩ :=
  submitting_ignores_repeated_submit 2026
    ⟨Phase.submitting, scenarioInput, []⟩ rfl

/-- C5 counterexample: the claim that every string not of the exact
`YYYY-MM-DD` shape is rejected is false — the regex is unanchored, so the
eleven-character string "1999-01-01x" passes the format check although it
is not of the exact shape. -/
theorem dob_format_check_accepts_non_exact_shape :
    dobFormatCheck "1999-01-01x" = true ∧
    isExactDateShape "1999-01-01x" = false := by decide

/-- C5 amended: the format check accepts exactly the strings CONTAINING a
`\d{4}-\d{2}-\d{2}` substring — every string of the exact shape passes,
but so do longer strings around such a substring; a string containing no
such substring is rejected with the format error. -/
theorem dob_format_check_contains_shape :
    (∀ s, isExactDateShape s = true → dobFormatCheck s = true) ∧
    (∀ s, dobFormatCheck s = true ↔
      ∃ l₁ l₂, s.data = l₁ ++ l₂ ∧ shapeAt l₂ = true) ∧
    (∀ (cy : Int) (s : String), dobFormatCheck s = false →
      firstFailing (dobRules cy) s =
        some "Invalid date format (YYYY-MM-DD)") := by
  refine ⟨?_, fun s => hasShape_iff s.data, ?_⟩
  · intro s hs
    rw [isExactDateShape, Bool.and_eq_true] at hs
    unfold dobFormatCheck
    cases hl : s.data with
    | nil =>
      rw [hl] at hs
      cases hs.1
    | cons a tl =>
      rw [hl] at hs
      unfold hasShape
      simp [hs.1]
  · intro cy s h
    simp [firstFailing, dobRules, List.findSome?_cons, h]

/-- Witness for C5 (amended): the exact-shape string "2000-01-01" passes
the format check. -/
theorem dob_format_check_contains_shape_witness :
    dobFormatCheck "2000-01-01" = true :=
  dob_format_check_contains_shape.1 "2000-01-01" (by decide)

/-- C6: the phone field is accepted exactly when it is non-empty, digits
only, and exactly 10 characters long; digit strings of length 9 or 11
fail with the length message, a 10-character string with a non-digit
fails with the digits message, the empty string fails with the required
message, and the three failure messages are pairwise distinct. -/
theorem phone_rule_characterization :
    (∀ s : String, firstFailing phoneRules s = none ↔
      (1 ≤ s.length ∧ digitsOnly s = true ∧ s.length = 10)) ∧
    firstFailing phoneRules "123456789" =
      some "Phone number must be exactly 10 digits" ∧
    firstFailing phoneRules "12345678901" =
      some "Phone number must be exactly 10 digits" ∧
    firstFailing phoneRules "123456789a" =
      some "Phone number must be digits only" ∧
    firstFailing phoneRules "" = some "Phone number is required" ∧
    ("Phone number is required" ≠ "Phone number must be digits only" ∧
     "Phone number is required" ≠ "Phone number must be exactly 10 digits" ∧
     "Phone number must be digits only" ≠
       "Phone number must be exactly 10 digits") := by
  refine ⟨?_, by decide, by decide, by decide, by decide, by decide⟩
  intro s
  by_cases h1 : 1 ≤ s.length
  · by_cases h2 : digitsOnly s = true
    · by_cases h3 : s.length = 10
      · simp [firstFailing, phoneRules, List.findSome?_cons, h1, h2, h3]
      · simp [firstFailing, phoneRules, List.findSome?_cons, h1, h2, h3]
    · simp [firstFailing, phoneRules, List.findSome?_cons, h1, h2]
  · simp [firstFailing, phoneRules, List.findSome?_cons, h1]

/-- Witness for C6: a 10-digit phone number passes all three rules. -/
theorem phone_rule_characterization_witness :
    firstFailing phoneRules "1234567890" = none :=
  (phone_rule_characterization.1 "1234567890").mpr (by decide)

/-- C7: the initialDeposit field is accepted exactly when it is an actual
number (not NaN) of value at least 100; exactly 100 passes, and 99.99
fails with the minimum-deposit message. -/
theorem initial_deposit_rule_characterization :
    (∀ x : JsNum, firstFailing initialDepositRules x = none ↔
      ∃ q : ℚ, x = JsNum.num q ∧ 100 ≤ q) ∧
    firstFailing initialDepositRules (JsNum.num 100) = none ∧
    firstFailing initialDepositRules (JsNum.num 99.99) =
      some "Minimum deposit is $100" := by
  refine ⟨?_, by decide, ?_⟩
  · intro x
    cases x with
    | nan => simp [firstFailing, initialDepositRules, List.findSome?_cons]
    | num q =>
      by_cases h : (100 : ℚ) ≤ q
      · simp [firstFailing, initialDepositRules, List.findSome?_cons, h]
      · simp [firstFailing, initialDepositRules, List.findSome?_cons, h]
  · have h : ¬ (100 : ℚ) ≤ 99.99 := by norm_num
    simp [firstFailing, initialDepositRules, List.findSome?_cons, h]

/-- Witness for C7: the concrete deposit 500 is accepted because it is a
number at least 100. -/
theorem initial_deposit_rule_characterization_witness :
    firstFailing initialDepositRules (JsNum.num 500) = none :=
  (initial_deposit_rule_characterization.1 (JsNum.num 500)).mpr
    ⟨500, rfl, by norm_num⟩

/-- C8: the error set maps each field to at most one message (its keys
are the failing fields, without duplicates), an entry is exactly the
message of the field's first failing rule in its chain, a field with no
entry satisfies every rule of its chain, and an empty fullName reports
the "required" message of the first failing rule, not the "too short"
one. -/
theorem error_set_first_failing_rule (cy : Int) (i : FormInput) :
    ((validationErrors cy i).map Prod.fst).Nodup ∧
    (∀ f m, (f, m) ∈ validationErrors cy i ↔ fieldError cy i f = some m) ∧
    (∀ f, (∀ m, (f, m) ∉ validationErrors cy i) ↔
      fieldError cy i f = none) ∧
    (i.fullname = "" →
      fieldError cy i FieldName.fullname = some "Full name is required") := by
  refine ⟨List.Nodup.sublist
      (errEntries_fst_sublist (fieldError cy i) fieldList) fieldList_nodup,
    mem_validationErrors cy i, ?_, ?_⟩
  · intro f
    constructor
    · intro h
      cases hf : fieldError cy i f with
      | none => rfl
      | some m => exact absurd ((mem_validationErrors cy i f m).mpr hf) (h m)
    · intro hf m hm
      rw [mem_validationErrors, hf] at hm
      cases hm
  · intro h
    show firstFailing fullnameRules i.fullname = some "Full name is required"
    rw [h]
    decide

/-- Witness for C8: with an empty full name the error entry is the
required message. -/
theorem error_set_first_failing_rule_witness :
    fieldError 2026 { scenarioInput with fullname := "" }
        FieldName.fullname = some "Full name is required" :=
  (error_set_first_failing_rule 2026
    { scenarioInput with fullname := "" }).2.2.2 rfl

/-- C10: a NaN initialDeposit (an empty or non-numeric deposit input
under `valueAsNumber`) always produces an error entry for the field, so
`validate` never succeeds on it; consequently a ValidatedAccountRequest
can never carry a NaN deposit. -/
theorem nan_deposit_never_validates (cy : Int) (i : FormInput) :
    (i.initialDeposit = JsNum.nan →
      ((FieldName.initialDeposit, "Expected number, received nan") ∈
          validationErrors cy i ∧
        ∀ r, validate cy i ≠ Except.ok r)) ∧
    (∀ r, validate cy i = Except.ok r →
      r.initialDeposit ≠ JsNum.nan) := by
  have hdep : i.initialDeposit = JsNum.nan →
      fieldError cy i FieldName.initialDeposit =
        some "Expected number, received nan" := by
    intro h
    show firstFailing initialDepositRules i.initialDeposit = _
    rw [h]
    decide
  constructor
  · intro h
    have hm : (FieldName.initialDeposit, "Expected number, received nan") ∈
        validationErrors cy i :=
      (mem_validationErrors cy i FieldName.initialDeposit
        "Expected number, received nan").mpr (hdep h)
    refine ⟨hm, ?_⟩
    intro r hr
    have hemp : (validationErrors cy i).isEmpty = false := by
      cases hl : validationErrors cy i with
      | nil =>
        rw [hl] at hm
        cases hm
      | cons a tl => rfl
    rw [validate_eq, hemp] at hr
    cases hr
  · intro r hr hnan
    rw [validate_eq] at hr
    by_cases h : (validationErrors cy i).isEmpty = true
    · rw [if_pos h, Except.ok.injEq] at hr
      have hfe := (validationErrors_eq_nil cy i).mp (List.isEmpty_iff.mp h)
      have hsome := hdep (by rw [← hr] at hnan; exact hnan)
      rw [hfe FieldName.initialDeposit] at hsome
      cases hsome
    · rw [if_neg h] at hr
      cases hr

/-- Witness for C10: the scenario input with a NaN deposit has the
initialDeposit error entry. -/
theorem nan_deposit_never_validates_witness :
    (FieldName.initialDeposit, "Expected number, received nan") ∈
      validationErrors 2026 { scenarioInput with initialDeposit := JsNum.nan } :=
  ((nan_deposit_never_validates 2026
    { scenarioInput with initialDeposit := JsNum.nan }).1 rfl).1
